import Mathlib

/-
  Verification of the sentinel-unity server core (Server/src).

  Shallow embedding conventions:
  - f32 / f64 values are modelled as exact rationals (ℚ); i64 timestamps as ℤ;
    u32 identifiers and quantities as ℕ (the claims under study never reach
    integer-overflow territory).
  - Each SpacetimeDB table is a list of rows; `find?` on the key column models
    an index lookup, and `table_update` models `update` on a unique column
    (replace the first row whose key matches the new row's key).
  - A reducer body is a function from a database state (plus the call
    arguments and `ctx.timestamp` / `ctx.sender`) to a result together with
    the state as left by the writes the body executed.
  - `Err(format!(...))` results are modelled by small error inductives; the
    formatted text is not modelled except where a claim refers to a numeric
    payload that is exactly representable (the cooldown remaining-seconds).
  - Comparisons of the form `a.sqrt() > b` on nonnegative `a` are embedded by
    the exact rational test `sqrt_gt a b = (b < 0 ∨ b^2 < a)`, which agrees
    with the real-number comparison `√a > b`; the bridge is proved as
    `sqrt_gt_true_iff` below.
-/

namespace Sentinel

/-- Vector type from Server/src/types.rs (`DbVector3`). -/
structure DbVector3 where
  x : ℚ
  y : ℚ
  z : ℚ
deriving DecidableEq

/-- Vector type from Server/src/types.rs (`DbVector2`). -/
structure DbVector2 where
  x : ℚ
  y : ℚ
deriving DecidableEq

/-- Animation state from Server/src/modules/player.rs (`DbAnimationState`). -/
structure DbAnimationState where
  horizontal_movement : ℚ
  vertical_movement : ℚ
  combo_count : ℕ
  is_moving : Bool
  is_grounded : Bool
  is_jumping : Bool
  is_attacking : Bool
deriving DecidableEq

/-- Player row from Server/src/modules/player.rs (table `player`). -/
structure Player where
  identity : ℕ
  player_id : ℕ
  entity_id : ℕ
  online : Bool
  look_direction : DbVector2
  animation_state : DbAnimationState
  last_valid_position : DbVector3
  last_update_timestamp : ℤ
  movement_speed : ℚ
  interaction_range : ℚ
  reconciliation_safety_margin : ℚ
deriving DecidableEq

/-- Entity row from Server/src/modules/entity.rs (table `entity`). -/
structure Entity where
  entity_id : ℕ
  position : DbVector3
  rotation : DbVector3
  health : ℚ
  max_health : ℚ
  attack_range : ℚ
deriving DecidableEq

/-- Navmesh sample point from Server/src/modules/navmesh.rs (table
`navmesh_grid`).  `grid_x`/`grid_z` are stored exactly as uploaded. -/
structure NavMeshGrid where
  id : ℕ
  x : ℚ
  y : ℚ
  z : ℚ
  grid_x : ℤ
  grid_z : ℤ
deriving DecidableEq

/-- Navmesh configuration from Server/src/modules/navmesh.rs (table
`navmesh_config`, keyed by `id`; the code always reads id 0). -/
structure NavMeshConfig where
  id : ℕ
  cell_size : ℚ
  z_tolerance : ℚ
  bounds_min_x : ℚ
  bounds_min_z : ℚ
deriving DecidableEq

/-- Lootable item type from Server/src/modules/lootable.rs (table
`lootable_item_type`). -/
structure LootableItemType where
  type_id : ℕ
  name : String
  description : String
  weight : ℚ
  quantity : ℕ
  respawn_time_us : ℤ
  loot_distance : ℚ
deriving DecidableEq

/-- Lootable spawn point from Server/src/modules/lootable.rs (table
`lootable_spawn`). -/
structure LootableSpawn where
  spawn_id : ℕ
  type_id : ℕ
  position : DbVector3
  rotation : DbVector3
  is_looted : Bool
  looted_at_us : ℤ
deriving DecidableEq

/-- Inventory item reference from Server/src/modules/inventory.rs. -/
structure ItemRef where
  id : ℕ
  quantity : ℕ
deriving DecidableEq

/-- Inventory row from Server/src/modules/inventory.rs (table `inventory`). -/
structure Inventory where
  identity : ℕ
  size : ℕ
  items : List ItemRef
deriving DecidableEq

/-- The database state: one list per table used by the verified modules. -/
structure State where
  players : List Player
  entities : List Entity
  navmesh_grid : List NavMeshGrid
  navmesh_configs : List NavMeshConfig
  lootable_item_types : List LootableItemType
  lootable_spawns : List LootableSpawn
  inventories : List Inventory
deriving DecidableEq

/-- Model of SpacetimeDB `update` on a unique key column: replace the first
row whose key equals the new row's key. -/
def table_update {α : Type} (key : α → ℕ) : List α → α → List α
  | [], _ => []
  | x :: xs, a => if key x = key a then a :: xs else x :: table_update key xs a

/-- Exact rational embedding of the f32 comparison `a.sqrt() > b` for a
nonnegative radicand `a`: true iff `b < 0` or `b^2 < a`, which agrees with
the real-number comparison `√a > b` (see `sqrt_gt_true_iff`). -/
def sqrt_gt (a b : ℚ) : Bool :=
  decide (b < 0) || decide (b ^ 2 < a)

/-- Per-point acceptance test inside `is_position_valid`
(Server/src/modules/navmesh.rs lines 134-140): horizontal squared distance
within `(cell_size * 1.5)^2` and vertical distance within `z_tolerance`. -/
def within_tolerance (cfg : NavMeshConfig) (x y z : ℚ) (p : NavMeshGrid) : Bool :=
  decide ((x - p.x) ^ 2 + (z - p.z) ^ 2 ≤ (cfg.cell_size * (3 / 2)) ^ 2) &&
  decide (|y - p.y| ≤ cfg.z_tolerance)

/-- The 3x3 block of cell offsets scanned by `is_position_valid`
(`for dx in -1..=1 { for dz in -1..=1 { ... } }`). -/
def scan_offsets : List (ℤ × ℤ) :=
  [(-1, -1), (-1, 0), (-1, 1), (0, -1), (0, 0), (0, 1), (1, -1), (1, 0), (1, 1)]

/-- Embedding of `is_position_valid` (Server/src/modules/navmesh.rs lines
104-148).  No config row with id 0 means validation is disabled (returns
true).  Otherwise the candidate's grid cell is computed by floor division
and the 3x3 neighbourhood is scanned for a point within tolerance. -/
def is_position_valid (st : State) (x y z : ℚ) : Bool :=
  match st.navmesh_configs.find? (fun c => c.id == 0) with
  | none => true
  | some config =>
    let grid_x : ℤ := ⌊(x - config.bounds_min_x) / config.cell_size⌋
    let grid_z : ℤ := ⌊(z - config.bounds_min_z) / config.cell_size⌋
    scan_offsets.any (fun d =>
      st.navmesh_grid.any (fun p =>
        p.grid_x == grid_x + d.1 && p.grid_z == grid_z + d.2 &&
        within_tolerance config x y z p))

/-- Movement rejection reasons of `player_set_position` (the code returns
`Err(String)`; the strings are abstracted to constructors). -/
inductive MovementError where
  | playerNotFound
  | entityNotFound
  | invalidSurface
  | speedViolation
deriving DecidableEq

/-- Embedding of `player_set_position` (Server/src/modules/player.rs lines
119-191).  Returns the reducer result together with the state as left by
the writes the body executed.  The speed test `horizontal_distance /
time_delta_secs > max_allowed_speed` is embedded, for `time_delta_secs > 0`,
as the equivalent `sqrt_gt horizontal_dist_sq (max_allowed_speed *
time_delta_secs)`. -/
def player_set_position (st : State) (sender : ℕ) (now_us : ℤ) (position : DbVector3) :
    Except MovementError Unit × State :=
  match st.players.find? (fun p => p.identity == sender) with
  | none => (Except.error MovementError.playerNotFound, st)
  | some player =>
    match st.entities.find? (fun e => e.entity_id == player.entity_id) with
    | none => (Except.error MovementError.entityNotFound, st)
    | some entity =>
      if is_position_valid st position.x position.y position.z = false then
        (Except.error MovementError.invalidSurface,
         { st with entities := (table_update (fun e => e.entity_id) st.entities
             ({ entity with position := player.last_valid_position })) })
      else
        let time_delta_micros : ℤ := now_us - player.last_update_timestamp
        let time_delta_secs : ℚ := (time_delta_micros : ℚ) / 1000000
        let horizontal_dist_sq : ℚ :=
          (position.x - entity.position.x) ^ 2 + (position.z - entity.position.z) ^ 2
        let max_allowed_speed : ℚ := player.movement_speed * (5 / 4)
        if 1 / 20 < time_delta_secs ∧
            sqrt_gt horizontal_dist_sq (max_allowed_speed * time_delta_secs) = true then
          (Except.error MovementError.speedViolation,
           { st with entities := (table_update (fun e => e.entity_id) st.entities
               ({ entity with position := player.last_valid_position })) })
        else
          (Except.ok (),
           { st with
             entities := (table_update (fun e => e.entity_id) st.entities
               ({ entity with position := position })),
             players := (table_update (fun p => p.identity) st.players
               ({ player with
                 last_valid_position := position,
                 last_update_timestamp := now_us })) })

/-- Embedding of the item-list mutation in `inventory_add_item_internal`
(Server/src/modules/inventory.rs lines 61-81): increment the first stack
with the given id, else push a new stack at the end. -/
def items_add (items : List ItemRef) (item_id : ℕ) (quantity : ℕ) : List ItemRef :=
  match items with
  | [] => [{ id := item_id, quantity := quantity }]
  | it :: rest =>
    if it.id = item_id then { it with quantity := it.quantity + quantity } :: rest
    else it :: items_add rest item_id quantity

/-- Embedding of `inventory_add_item_internal` (Server/src/modules/inventory.rs
lines 61-81).  If no inventory row exists for the identity the call is a
no-op (and still succeeds). -/
def inventory_add_item_internal (invs : List Inventory) (identity : ℕ)
    (item_id : ℕ) (quantity : ℕ) : List Inventory :=
  match invs.find? (fun inv => inv.identity == identity) with
  | none => invs
  | some inv =>
    table_update (fun i => i.identity) invs
      ({ inv with items := (items_add inv.items item_id quantity) })

/-- Loot rejection reasons of `lootable_loot` (the code returns
`Err(String)`; the strings are abstracted to constructors, keeping the
numeric payload only for the cooldown message, whose remaining-seconds
value is exactly representable). -/
inductive LootError where
  | playerNotFound
  | entityNotFound
  | unknownSpawn
  | typeNotFound
  | outOfRange
  | onCooldown (remaining_seconds : ℚ)
deriving DecidableEq

/-- Embedding of `lootable_loot` (Server/src/modules/lootable.rs lines
184-266).  The range test `player_entity.position.distance(&spawn.position)
> item_type.loot_distance` is embedded as `sqrt_gt` of the squared
3D distance. -/
def lootable_loot (st : State) (sender : ℕ) (now_us : ℤ) (spawn_id : ℕ) :
    Except LootError Unit × State :=
  match st.players.find? (fun p => p.identity == sender) with
  | none => (Except.error LootError.playerNotFound, st)
  | some player =>
  match st.entities.find? (fun e => e.entity_id == player.entity_id) with
  | none => (Except.error LootError.entityNotFound, st)
  | some player_entity =>
  match st.lootable_spawns.find? (fun s => s.spawn_id == spawn_id) with
  | none => (Except.error LootError.unknownSpawn, st)
  | some spawn =>
  match st.lootable_item_types.find? (fun t => t.type_id == spawn.type_id) with
  | none => (Except.error LootError.typeNotFound, st)
  | some item_type =>
    let dist_sq : ℚ :=
      (player_entity.position.x - spawn.position.x) ^ 2 +
      (player_entity.position.y - spawn.position.y) ^ 2 +
      (player_entity.position.z - spawn.position.z) ^ 2
    if sqrt_gt dist_sq item_type.loot_distance = true then
      (Except.error LootError.outOfRange, st)
    else if spawn.is_looted = true ∧ now_us - spawn.looted_at_us < item_type.respawn_time_us then
      (Except.error
        (LootError.onCooldown
          (((item_type.respawn_time_us - (now_us - spawn.looted_at_us) : ℤ) : ℚ) / 1000000)),
       st)
    else
      (Except.ok (),
       { st with
         lootable_spawns := (table_update (fun s => s.spawn_id) st.lootable_spawns
           ({ spawn with is_looted := true, looted_at_us := now_us })),
         inventories :=
           (inventory_add_item_internal st.inventories sender item_type.type_id
             item_type.quantity) })

/-- The filter predicate of `lootable_check_respawns`
(Server/src/modules/lootable.rs lines 279-291): looted, known type, and
elapsed time at least the type's respawn time. -/
def respawn_eligible (types : List LootableItemType) (now_us : ℤ)
    (s : LootableSpawn) : Bool :=
  s.is_looted &&
    (match types.find? (fun t => t.type_id == s.type_id) with
     | some item_type => decide (now_us - s.looted_at_us ≥ item_type.respawn_time_us)
     | none => false)

/-- Embedding of `lootable_check_respawns` (Server/src/modules/lootable.rs
lines 270-304): collect the eligible spawns, then update each back to
`is_looted = false, looted_at_us = 0`. -/
def lootable_check_respawns (st : State) (now_us : ℤ) : State :=
  let spawns_to_respawn :=
    st.lootable_spawns.filter (fun s => respawn_eligible st.lootable_item_types now_us s)
  { st with
    lootable_spawns :=
      (spawns_to_respawn.foldl
        (fun acc s =>
          table_update (fun q => q.spawn_id) acc
            ({ s with is_looted := false, looted_at_us := 0 }))
        st.lootable_spawns) }

/-- Modelled from the spec: the per-spawn effect of `sweep_respawns` as the
spec describes it — reset exactly the looted spawns whose elapsed time has
met or exceeded their type's respawn time, leaving every other spawn (and
every other field) unchanged.  Used to state the refinement claims about
`lootable_check_respawns`. -/
def sweep_step (types : List LootableItemType) (now_us : ℤ)
    (s : LootableSpawn) : LootableSpawn :=
  if respawn_eligible types now_us s then { s with is_looted := false, looted_at_us := 0 }
  else s

/-! ### Helper lemmas -/

theorem sqrt_gt_true_iff (a b : ℚ) :
    sqrt_gt a b = true ↔ (b : ℝ) < Real.sqrt (a : ℝ) := by
  unfold sqrt_gt
  simp only [Bool.or_eq_true, decide_eq_true_eq]
  constructor
  · rintro (hb | hba)
    · exact lt_of_lt_of_le (by exact_mod_cast hb) (Real.sqrt_nonneg _)
    · rcases lt_or_le b 0 with hb | hb
      · exact lt_of_lt_of_le (by exact_mod_cast hb) (Real.sqrt_nonneg _)
      · have hb0 : (0 : ℝ) ≤ (b : ℝ) := by exact_mod_cast hb
        rw [Real.lt_sqrt hb0]
        exact_mod_cast hba
  · intro h
    rcases lt_or_le b 0 with hb | hb
    · exact Or.inl hb
    · have hb0 : (0 : ℝ) ≤ (b : ℝ) := by exact_mod_cast hb
      exact Or.inr (by exact_mod_cast (Real.lt_sqrt hb0).mp h)

theorem sqrt_gt_false_iff (a b : ℚ) :
    sqrt_gt a b = false ↔ Real.sqrt (a : ℝ) ≤ (b : ℝ) := by
  rw [← not_lt, Bool.eq_false_iff, Ne, ← Bool.not_eq_false]
  simp only [Bool.not_eq_false]
  exact not_congr (sqrt_gt_true_iff a b)

theorem table_update_cons_eq {α : Type} (key : α → ℕ) (x : α) (xs : List α) (a : α)
    (h : key x = key a) : table_update key (x :: xs) a = a :: xs := by
  simp [table_update, h]

theorem table_update_cons_ne {α : Type} (key : α → ℕ) (x : α) (xs : List α) (a : α)
    (h : key x ≠ key a) : table_update key (x :: xs) a = x :: table_update key xs a := by
  simp [table_update, h]

theorem find?_table_update_self {α : Type} (key : α → ℕ) (l : List α) (a b : α) (k : ℕ)
    (hk : key a = k) (hb : l.find? (fun x => key x == k) = some b) :
    (table_update key l a).find? (fun x => key x == k) = some a := by
  induction l with
  | nil => simp [List.find?] at hb
  | cons x xs ih =>
    by_cases hx : key x = k
    · rw [table_update_cons_eq key x xs a (hx.trans hk.symm)]
      exact List.find?_cons_of_pos _ (by simp [hk])
    · rw [table_update_cons_ne key x xs a (fun he => hx (he.trans hk))]
      rw [List.find?_cons_of_neg _ (by simp [hx])] at hb
      rw [List.find?_cons_of_neg _ (by simp [hx])]
      exact ih hb

theorem find?_map_key {α : Type} (key : α → ℕ) (f : α → α)
    (hf : ∀ x, key (f x) = key x) (l : List α) (k : ℕ) :
    (l.map f).find? (fun x => key x == k) = (l.find? (fun x => key x == k)).map f := by
  induction l with
  | nil => rfl
  | cons x xs ih =>
    by_cases hx : key x = k
    · rw [List.map_cons, List.find?_cons_of_pos _ (by simp [hf, hx]),
        List.find?_cons_of_pos _ (by simp [hx])]
      rfl
    · rw [List.map_cons, List.find?_cons_of_neg _ (by simp [hf, hx]),
        List.find?_cons_of_neg _ (by simp [hx])]
      exact ih

theorem sweep_step_spawn_id (types : List LootableItemType) (now_us : ℤ)
    (s : LootableSpawn) : (sweep_step types now_us s).spawn_id = s.spawn_id := by
  unfold sweep_step
  split <;> rfl

theorem sweep_step_idem (types : List LootableItemType) (now_us : ℤ) (s : LootableSpawn) :
    sweep_step types now_us (sweep_step types now_us s) = sweep_step types now_us s := by
  unfold sweep_step
  by_cases h : respawn_eligible types now_us s = true
  · rw [if_pos h, if_neg (by simp [respawn_eligible])]
  · rw [if_neg h, if_neg h]

theorem foldl_update_head_ne (x : LootableSpawn) (xs ms : List LootableSpawn)
    (h : ∀ s ∈ ms, s.spawn_id ≠ x.spawn_id) :
    ms.foldl
        (fun acc s => table_update (fun q => q.spawn_id) acc
          ({ s with is_looted := false, looted_at_us := 0 })) (x :: xs)
      = x :: ms.foldl
          (fun acc s => table_update (fun q => q.spawn_id) acc
            ({ s with is_looted := false, looted_at_us := 0 })) xs := by
  induction ms generalizing xs with
  | nil => rfl
  | cons m ms ih =>
    simp only [List.foldl_cons]
    rw [table_update_cons_ne (fun q => q.spawn_id) x xs
      ({ m with is_looted := false, looted_at_us := 0 })
      (fun he => h m (List.mem_cons_self m ms) he.symm)]
    exact ih _ (fun s hs => h s (List.mem_cons_of_mem m hs))

theorem check_respawns_foldl_eq_map (types : List LootableItemType) (now_us : ℤ)
    (l : List LootableSpawn) (hnd : (l.map (fun s => s.spawn_id)).Nodup) :
    (l.filter (fun s => respawn_eligible types now_us s)).foldl
        (fun acc s => table_update (fun q => q.spawn_id) acc
          ({ s with is_looted := false, looted_at_us := 0 })) l
      = l.map (sweep_step types now_us) := by
  induction l with
  | nil => rfl
  | cons x xs ih =>
    rw [List.map_cons] at hnd
    obtain ⟨hx, hnd2⟩ := List.nodup_cons.mp hnd
    have hne : ∀ s ∈ xs.filter (fun s => respawn_eligible types now_us s),
        s.spawn_id ≠ x.spawn_id := by
      intro s hs he
      exact hx (he ▸ List.mem_map_of_mem (fun q => q.spawn_id) (List.mem_of_mem_filter hs))
    by_cases hel : respawn_eligible types now_us x = true
    · rw [List.filter_cons_of_pos hel, List.foldl_cons,
        table_update_cons_eq (fun q : LootableSpawn => q.spawn_id) x xs
          ({ x with is_looted := false, looted_at_us := 0 }) rfl,
        foldl_update_head_ne ({ x with is_looted := false, looted_at_us := 0 }) xs
          (xs.filter (fun s => respawn_eligible types now_us s)) hne,
        ih hnd2, List.map_cons]
      congr 1
      unfold sweep_step
      rw [if_pos hel]
    · rw [List.filter_cons_of_neg hel, foldl_update_head_ne _ _ _ hne, ih hnd2,
        List.map_cons]
      congr 1
      unfold sweep_step
      rw [if_neg hel]

theorem check_respawns_eq_map (st : State) (now_us : ℤ)
    (hnd : (st.lootable_spawns.map (fun s => s.spawn_id)).Nodup) :
    lootable_check_respawns st now_us
      = { st with lootable_spawns :=
            (st.lootable_spawns.map (sweep_step st.lootable_item_types now_us)) } := by
  simp only [lootable_check_respawns]
  rw [check_respawns_foldl_eq_map _ _ _ hnd]

/-! ### Navmesh claims -/

theorem is_position_valid_of_point (st : State) (cfg : NavMeshConfig) (p : NavMeshGrid)
    (x y z : ℚ)
    (hc : st.navmesh_configs.find? (fun c => c.id == 0) = some cfg)
    (hp : p ∈ st.navmesh_grid)
    (hgx : ⌊(x - cfg.bounds_min_x) / cfg.cell_size⌋ - 1 ≤ p.grid_x ∧
           p.grid_x ≤ ⌊(x - cfg.bounds_min_x) / cfg.cell_size⌋ + 1)
    (hgz : ⌊(z - cfg.bounds_min_z) / cfg.cell_size⌋ - 1 ≤ p.grid_z ∧
           p.grid_z ≤ ⌊(z - cfg.bounds_min_z) / cfg.cell_size⌋ + 1)
    (hw : within_tolerance cfg x y z p = true) :
    is_position_valid st x y z = true := by
  simp only [is_position_valid, hc]
  rw [List.any_eq_true]
  refine ⟨(p.grid_x - ⌊(x - cfg.bounds_min_x) / cfg.cell_size⌋,
           p.grid_z - ⌊(z - cfg.bounds_min_z) / cfg.cell_size⌋), ?_, ?_⟩
  · have h1 : p.grid_x - ⌊(x - cfg.bounds_min_x) / cfg.cell_size⌋ = -1 ∨
        p.grid_x - ⌊(x - cfg.bounds_min_x) / cfg.cell_size⌋ = 0 ∨
        p.grid_x - ⌊(x - cfg.bounds_min_x) / cfg.cell_size⌋ = 1 := by omega
    have h2 : p.grid_z - ⌊(z - cfg.bounds_min_z) / cfg.cell_size⌋ = -1 ∨
        p.grid_z - ⌊(z - cfg.bounds_min_z) / cfg.cell_size⌋ = 0 ∨
        p.grid_z - ⌊(z - cfg.bounds_min_z) / cfg.cell_size⌋ = 1 := by omega
    rcases h1 with h1 | h1 | h1 <;> rcases h2 with h2 | h2 | h2 <;>
      simp [scan_offsets, h1, h2]
  · rw [List.any_eq_true]
    refine ⟨p, hp, ?_⟩
    simp only [Bool.and_eq_true, beq_iff_eq]
    refine ⟨⟨by omega, by omega⟩, hw⟩

/-- Claim C5: with a navmesh config loaded, for every candidate position and
every sample point inside the scanned 3x3 block of cells, a horizontal
squared offset of exactly `(cell_size * 1.5)^2` (with vertical offset within
`z_tolerance`) makes `is_position_valid` accept, while a strictly greater
horizontal squared offset fails the per-point tolerance test; a vertical
offset exactly equal to `z_tolerance` (with the horizontal bound met) is
accepted, and one strictly greater fails the per-point test.  Both
boundaries are inclusive. -/
theorem navmesh_tolerance_boundary (st : State) (cfg : NavMeshConfig) (p : NavMeshGrid)
    (x y z : ℚ)
    (hc : st.navmesh_configs.find? (fun c => c.id == 0) = some cfg)
    (hp : p ∈ st.navmesh_grid)
    (hgx : ⌊(x - cfg.bounds_min_x) / cfg.cell_size⌋ - 1 ≤ p.grid_x ∧
           p.grid_x ≤ ⌊(x - cfg.bounds_min_x) / cfg.cell_size⌋ + 1)
    (hgz : ⌊(z - cfg.bounds_min_z) / cfg.cell_size⌋ - 1 ≤ p.grid_z ∧
           p.grid_z ≤ ⌊(z - cfg.bounds_min_z) / cfg.cell_size⌋ + 1) :
    ((x - p.x) ^ 2 + (z - p.z) ^ 2 = (cfg.cell_size * (3 / 2)) ^ 2 →
      |y - p.y| ≤ cfg.z_tolerance → is_position_valid st x y z = true) ∧
    ((cfg.cell_size * (3 / 2)) ^ 2 < (x - p.x) ^ 2 + (z - p.z) ^ 2 →
      within_tolerance cfg x y z p = false) ∧
    ((x - p.x) ^ 2 + (z - p.z) ^ 2 ≤ (cfg.cell_size * (3 / 2)) ^ 2 →
      |y - p.y| = cfg.z_tolerance → is_position_valid st x y z = true) ∧
    (cfg.z_tolerance < |y - p.y| → within_tolerance cfg x y z p = false) := by
  refine ⟨?_, ?_, ?_, ?_⟩
  · intro hh hv
    exact is_position_valid_of_point st cfg p x y z hc hp hgx hgz
      (by simp [within_tolerance, le_of_eq hh, hv])
  · intro hh
    simp [within_tolerance, not_le.mpr hh]
  · intro hh hv
    exact is_position_valid_of_point st cfg p x y z hc hp hgx hgz
      (by simp [within_tolerance, hh, le_of_eq hv])
  · intro hv
    simp [within_tolerance, not_le.mpr hv]

/-- Concrete state for the C5 witness: cell_size 2, z_tolerance 1, bounds at
the origin, one sample point at the origin in cell (0, 0). -/
def nav_witness_state : State where
  players := []
  entities := []
  navmesh_grid := [{ id := 1, x := 0, y := 0, z := 0, grid_x := 0, grid_z := 0 }]
  navmesh_configs := [{ id := 0, cell_size := 2, z_tolerance := 1,
                        bounds_min_x := 0, bounds_min_z := 0 }]
  lootable_item_types := []
  lootable_spawns := []
  inventories := []

theorem navmesh_tolerance_boundary_witness :
    is_position_valid nav_witness_state 3 1 0 = true ∧
    within_tolerance { id := 0, cell_size := 2, z_tolerance := 1,
                       bounds_min_x := 0, bounds_min_z := 0 } (7 / 2) 0 0
      { id := 1, x := 0, y := 0, z := 0, grid_x := 0, grid_z := 0 } = false := by
  have h := navmesh_tolerance_boundary nav_witness_state
    { id := 0, cell_size := 2, z_tolerance := 1, bounds_min_x := 0, bounds_min_z := 0 }
    { id := 1, x := 0, y := 0, z := 0, grid_x := 0, grid_z := 0 }
    3 1 0 (by rfl) (by simp [nav_witness_state]) (by norm_num) (by norm_num)
  have h2 := navmesh_tolerance_boundary nav_witness_state
    { id := 0, cell_size := 2, z_tolerance := 1, bounds_min_x := 0, bounds_min_z := 0 }
    { id := 1, x := 0, y := 0, z := 0, grid_x := 0, grid_z := 0 }
    (7 / 2) 0 0 (by rfl) (by simp [nav_witness_state]) (by norm_num) (by norm_num)
  exact ⟨h.1 (by norm_num) (by norm_num), h2.2.1 (by norm_num)⟩

/-- Claim C6 counterexample: the claim that `is_position_valid` accepts the
exact coordinates of every uploaded point is false on the code, because
`navmesh_upload_point` stores caller-supplied grid coordinates.  First part:
a point whose stored cell (5, 5) disagrees with the mapping of its world
coordinates is missed by the 3x3 scan.  Second part: even with matching grid
coordinates, a negative `z_tolerance` rejects the point's own position. -/
def c6_state_a : State where
  players := []
  entities := []
  navmesh_grid := [{ id := 1, x := 0, y := 0, z := 0, grid_x := 5, grid_z := 5 }]
  navmesh_configs := [{ id := 0, cell_size := 1, z_tolerance := 1,
                        bounds_min_x := 0, bounds_min_z := 0 }]
  lootable_item_types := []
  lootable_spawns := []
  inventories := []

def c6_state_b : State where
  players := []
  entities := []
  navmesh_grid := [{ id := 1, x := 0, y := 0, z := 0, grid_x := 0, grid_z := 0 }]
  navmesh_configs := [{ id := 0, cell_size := 1, z_tolerance := -1,
                        bounds_min_x := 0, bounds_min_z := 0 }]
  lootable_item_types := []
  lootable_spawns := []
  inventories := []

theorem reflexive_walkable_counterexample :
    ({ id := 1, x := 0, y := 0, z := 0, grid_x := 5, grid_z := 5 } ∈
        c6_state_a.navmesh_grid ∧
      is_position_valid c6_state_a 0 0 0 = false) ∧
    ({ id := 1, x := 0, y := 0, z := 0, grid_x := 0, grid_z := 0 } ∈
        c6_state_b.navmesh_grid ∧
      is_position_valid c6_state_b 0 0 0 = false) := by
  refine ⟨⟨by simp [c6_state_a], ?_⟩, ⟨by simp [c6_state_b], ?_⟩⟩
  · simp only [is_position_valid, c6_state_a]
    norm_num [scan_offsets, within_tolerance]
  · simp only [is_position_valid, c6_state_b]
    norm_num [scan_offsets, within_tolerance]

/-- Claim C6 (amended): with a navmesh config loaded, every uploaded point
whose stored grid coordinates equal the config's affine mapping of its own
world coordinates, and with a nonnegative `z_tolerance`, is accepted by
`is_position_valid` at exactly its own coordinates. -/
theorem reflexive_walkable_amended (st : State) (cfg : NavMeshConfig) (p : NavMeshGrid)
    (hc : st.navmesh_configs.find? (fun c => c.id == 0) = some cfg)
    (hp : p ∈ st.navmesh_grid)
    (hgx : p.grid_x = ⌊(p.x - cfg.bounds_min_x) / cfg.cell_size⌋)
    (hgz : p.grid_z = ⌊(p.z - cfg.bounds_min_z) / cfg.cell_size⌋)
    (hz : 0 ≤ cfg.z_tolerance) :
    is_position_valid st p.x p.y p.z = true := by
  refine is_position_valid_of_point st cfg p p.x p.y p.z hc hp
    (by omega) (by omega) ?_
  have hsq : (0 : ℚ) ≤ (cfg.cell_size * (3 / 2)) ^ 2 := sq_nonneg _
  simp [within_tolerance, hsq, hz]

theorem reflexive_walkable_amended_witness :
    is_position_valid nav_witness_state 0 0 0 = true :=
  reflexive_walkable_amended nav_witness_state
    { id := 0, cell_size := 2, z_tolerance := 1, bounds_min_x := 0, bounds_min_z := 0 }
    { id := 1, x := 0, y := 0, z := 0, grid_x := 0, grid_z := 0 }
    (by rfl) (by simp [nav_witness_state]) (by norm_num) (by norm_num) (by norm_num)

/-- Claim C7: when no navmesh configuration record exists, position
validation is disabled: `is_position_valid` returns true for every candidate
position, with no error reported (the function has no failure outcome). -/
theorem no_config_fail_open (st : State) (x y z : ℚ)
    (hc : st.navmesh_configs.find? (fun c => c.id == 0) = none) :
    is_position_valid st x y z = true := by
  simp only [is_position_valid, hc]

def empty_state : State where
  players := []
  entities := []
  navmesh_grid := []
  navmesh_configs := []
  lootable_item_types := []
  lootable_spawns := []
  inventories := []

theorem no_config_fail_open_witness :
    is_position_valid empty_state 5 (-3) 7 = true :=
  no_config_fail_open empty_state 5 (-3) 7 (by rfl)

/-! ### Movement claims -/

theorem player_set_position_cases (st : State) (sender : ℕ) (now_us : ℤ)
    (position : DbVector3) (player : Player) (entity : Entity)
    (hp : st.players.find? (fun p => p.identity == sender) = some player)
    (he : st.entities.find? (fun e => e.entity_id == player.entity_id) = some entity) :
    (is_position_valid st position.x position.y position.z = false ∧
      player_set_position st sender now_us position =
        (Except.error MovementError.invalidSurface,
         { st with entities := (table_update (fun e => e.entity_id) st.entities
             ({ entity with position := player.last_valid_position })) })) ∨
    (is_position_valid st position.x position.y position.z = true ∧
      (1 / 20 < ((now_us - player.last_update_timestamp : ℤ) : ℚ) / 1000000 ∧
        sqrt_gt ((position.x - entity.position.x) ^ 2 + (position.z - entity.position.z) ^ 2)
          (player.movement_speed * (5 / 4) *
            (((now_us - player.last_update_timestamp : ℤ) : ℚ) / 1000000)) = true) ∧
      player_set_position st sender now_us position =
        (Except.error MovementError.speedViolation,
         { st with entities := (table_update (fun e => e.entity_id) st.entities
             ({ entity with position := player.last_valid_position })) })) ∨
    (is_position_valid st position.x position.y position.z = true ∧
      ¬(1 / 20 < ((now_us - player.last_update_timestamp : ℤ) : ℚ) / 1000000 ∧
        sqrt_gt ((position.x - entity.position.x) ^ 2 + (position.z - entity.position.z) ^ 2)
          (player.movement_speed * (5 / 4) *
            (((now_us - player.last_update_timestamp : ℤ) : ℚ) / 1000000)) = true) ∧
      player_set_position st sender now_us position =
        (Except.ok (),
         { st with
           entities := (table_update (fun e => e.entity_id) st.entities
             ({ entity with position := position })),
           players := (table_update (fun p => p.identity) st.players
             ({ player with last_valid_position := position, last_update_timestamp := now_us })) })) := by
  cases hB : is_position_valid st position.x position.y position.z with
  | false =>
    refine Or.inl ⟨rfl, ?_⟩
    simp only [player_set_position, hp, he]
    rw [if_pos hB]
  | true =>
    have hnotf : ¬ is_position_valid st position.x position.y position.z = false := by
      simp [hB]
    by_cases h2 : 1 / 20 < ((now_us - player.last_update_timestamp : ℤ) : ℚ) / 1000000 ∧
        sqrt_gt ((position.x - entity.position.x) ^ 2 + (position.z - entity.position.z) ^ 2)
          (player.movement_speed * (5 / 4) *
            (((now_us - player.last_update_timestamp : ℤ) : ℚ) / 1000000)) = true
    · refine Or.inr (Or.inl ⟨rfl, h2, ?_⟩)
      simp only [player_set_position, hp, he]
      rw [if_neg hnotf, if_pos h2]
    · refine Or.inr (Or.inr ⟨rfl, h2, ?_⟩)
      simp only [player_set_position, hp, he]
      rw [if_neg hnotf, if_neg h2]

/-- Claim C1: for a movement update by an existing player with an existing
entity whose candidate position passes the navmesh check, writing `dt` for
the elapsed time in seconds and `hsq` for the squared horizontal (XZ)
displacement from the current live entity position: if `dt ≤ 0.05` the
update is accepted regardless of displacement; if `dt > 0.05` it is
accepted exactly when the horizontal displacement divided by `dt` is at
most `movement_speed * 1.25`, and rejected with a speed violation when that
ratio is strictly greater. -/
theorem player_speed_gate (st : State) (sender : ℕ) (now_us : ℤ)
    (position : DbVector3) (player : Player) (entity : Entity) (dt hsq : ℚ)
    (hp : st.players.find? (fun p => p.identity == sender) = some player)
    (he : st.entities.find? (fun e => e.entity_id == player.entity_id) = some entity)
    (hnav : is_position_valid st position.x position.y position.z = true)
    (hdt : dt = ((now_us - player.last_update_timestamp : ℤ) : ℚ) / 1000000)
    (hhsq : hsq = (position.x - entity.position.x) ^ 2 +
      (position.z - entity.position.z) ^ 2) :
    (dt ≤ 1 / 20 → (player_set_position st sender now_us position).1 = Except.ok ()) ∧
    (1 / 20 < dt →
      (((player_set_position st sender now_us position).1 = Except.ok ()) ↔
        Real.sqrt (hsq : ℝ) / (dt : ℝ) ≤ (player.movement_speed : ℝ) * (5 / 4)) ∧
      ((player.movement_speed : ℝ) * (5 / 4) < Real.sqrt (hsq : ℝ) / (dt : ℝ) →
        (player_set_position st sender now_us position).1
          = Except.error MovementError.speedViolation)) := by
  subst hdt hhsq
  have hcases := player_set_position_cases st sender now_us position player entity hp he
  constructor
  · intro hle
    rcases hcases with ⟨h1, heq⟩ | ⟨h1, h2, heq⟩ | ⟨h1, h2, heq⟩
    · rw [hnav] at h1
      exact Bool.noConfusion h1
    · exact absurd h2.1 (not_lt.mpr hle)
    · rw [heq]
  · intro hlt
    have hdtR : (0 : ℝ) <
        ((((now_us - player.last_update_timestamp : ℤ) : ℚ) / 1000000 : ℚ) : ℝ) := by
      have h0 : (0 : ℚ) < ((now_us - player.last_update_timestamp : ℤ) : ℚ) / 1000000 :=
        lt_trans (by norm_num) hlt
      exact_mod_cast h0
    have hbridge :
        (sqrt_gt ((position.x - entity.position.x) ^ 2 + (position.z - entity.position.z) ^ 2)
          (player.movement_speed * (5 / 4) *
            (((now_us - player.last_update_timestamp : ℤ) : ℚ) / 1000000)) = true) ↔
        (player.movement_speed : ℝ) * (5 / 4) <
          Real.sqrt ((((position.x - entity.position.x) ^ 2 +
              (position.z - entity.position.z) ^ 2 : ℚ)) : ℝ) /
            ((((now_us - player.last_update_timestamp : ℤ) : ℚ) / 1000000 : ℚ) : ℝ) := by
      rw [sqrt_gt_true_iff, lt_div_iff₀ hdtR]
      constructor
      · intro h
        calc (player.movement_speed : ℝ) * (5 / 4) *
              ((((now_us - player.last_update_timestamp : ℤ) : ℚ) / 1000000 : ℚ) : ℝ)
            = ((player.movement_speed * (5 / 4) *
                (((now_us - player.last_update_timestamp : ℤ) : ℚ) / 1000000) : ℚ) : ℝ) := by
              push_cast
              ring
          _ < _ := h
      · intro h
        calc ((player.movement_speed * (5 / 4) *
                (((now_us - player.last_update_timestamp : ℤ) : ℚ) / 1000000) : ℚ) : ℝ)
            = (player.movement_speed : ℝ) * (5 / 4) *
              ((((now_us - player.last_update_timestamp : ℤ) : ℚ) / 1000000 : ℚ) : ℝ) := by
              push_cast
              ring
          _ < _ := h
    rcases hcases with ⟨h1, heq⟩ | ⟨h1, h2, heq⟩ | ⟨h1, h2, heq⟩
    · rw [hnav] at h1
      exact Bool.noConfusion h1
    · refine ⟨?_, fun _ => by rw [heq]⟩
      rw [heq]
      constructor
      · intro hok
        exact absurd hok (by simp)
      · intro hle
        exact absurd (hbridge.mp h2.2) (not_lt.mpr hle)
    · have hsg : sqrt_gt ((position.x - entity.position.x) ^ 2 +
          (position.z - entity.position.z) ^ 2)
          (player.movement_speed * (5 / 4) *
            (((now_us - player.last_update_timestamp : ℤ) : ℚ) / 1000000)) = false := by
        cases hB : sqrt_gt ((position.x - entity.position.x) ^ 2 +
            (position.z - entity.position.z) ^ 2)
            (player.movement_speed * (5 / 4) *
              (((now_us - player.last_update_timestamp : ℤ) : ℚ) / 1000000)) with
        | false => rfl
        | true => exact absurd ⟨hlt, hB⟩ h2
      have hle : Real.sqrt ((((position.x - entity.position.x) ^ 2 +
            (position.z - entity.position.z) ^ 2 : ℚ)) : ℝ) /
            ((((now_us - player.last_update_timestamp : ℤ) : ℚ) / 1000000 : ℚ) : ℝ) ≤
          (player.movement_speed : ℝ) * (5 / 4) := by
        have hsle := (sqrt_gt_false_iff ((position.x - entity.position.x) ^ 2 +
            (position.z - entity.position.z) ^ 2)
            (player.movement_speed * (5 / 4) *
              (((now_us - player.last_update_timestamp : ℤ) : ℚ) / 1000000))).mp hsg
        rw [div_le_iff₀ hdtR]
        calc Real.sqrt ((((position.x - entity.position.x) ^ 2 +
                (position.z - entity.position.z) ^ 2 : ℚ)) : ℝ)
            ≤ ((player.movement_speed * (5 / 4) *
                (((now_us - player.last_update_timestamp : ℤ) : ℚ) / 1000000) : ℚ) : ℝ) := hsle
          _ = (player.movement_speed : ℝ) * (5 / 4) *
              ((((now_us - player.last_update_timestamp : ℤ) : ℚ) / 1000000 : ℚ) : ℝ) := by
              push_cast
              ring
      refine ⟨?_, ?_⟩
      · rw [heq]
        exact iff_of_true rfl hle
      · intro hgt
        exact absurd hgt (not_lt.mpr hle)

/-- Claim C2: every rejected movement update (invalid surface or speed
violation) by an existing player with an existing entity resets the live
entity position to the player's `last_valid_position`, and leaves the whole
player table — in particular `last_valid_position` and
`last_update_timestamp` — unchanged. -/
theorem rejection_rollback (st : State) (sender : ℕ) (now_us : ℤ) (position : DbVector3)
    (player : Player) (entity : Entity) (e : MovementError)
    (hp : st.players.find? (fun p => p.identity == sender) = some player)
    (he : st.entities.find? (fun q => q.entity_id == player.entity_id) = some entity)
    (herr : (player_set_position st sender now_us position).1 = Except.error e) :
    ((player_set_position st sender now_us position).2.entities.find?
        (fun q => q.entity_id == player.entity_id)
      = some ({ entity with position := player.last_valid_position })) ∧
    (player_set_position st sender now_us position).2.players = st.players := by
  have hent : entity.entity_id = player.entity_id := by simpa using List.find?_some he
  rcases player_set_position_cases st sender now_us position player entity hp he with
    ⟨h1, heq⟩ | ⟨h1, h2, heq⟩ | ⟨h1, h2, heq⟩
  · rw [heq]
    exact ⟨find?_table_update_self (fun q : Entity => q.entity_id) st.entities
      ({ entity with position := player.last_valid_position }) entity
      player.entity_id hent he, rfl⟩
  · rw [heq]
    exact ⟨find?_table_update_self (fun q : Entity => q.entity_id) st.entities
      ({ entity with position := player.last_valid_position }) entity
      player.entity_id hent he, rfl⟩
  · rw [heq] at herr
    simp at herr

/-- Claim C9: after every completed call to `player_set_position` that finds
both the player and the player's entity — accepted or rejected — the live
entity position equals the player's `last_valid_position`. -/
theorem live_position_matches_last_valid (st : State) (sender : ℕ) (now_us : ℤ)
    (position : DbVector3) (player : Player) (entity : Entity)
    (hp : st.players.find? (fun p => p.identity == sender) = some player)
    (he : st.entities.find? (fun q => q.entity_id == player.entity_id) = some entity) :
    ∃ p2 e2,
      (player_set_position st sender now_us position).2.players.find?
          (fun q => q.identity == sender) = some p2 ∧
      (player_set_position st sender now_us position).2.entities.find?
          (fun q => q.entity_id == p2.entity_id) = some e2 ∧
      e2.position = p2.last_valid_position := by
  have hid : player.identity = sender := by simpa using List.find?_some hp
  have hent : entity.entity_id = player.entity_id := by simpa using List.find?_some he
  rcases player_set_position_cases st sender now_us position player entity hp he with
    ⟨h1, heq⟩ | ⟨h1, h2, heq⟩ | ⟨h1, h2, heq⟩
  · refine ⟨player, { entity with position := player.last_valid_position }, ?_, ?_, rfl⟩
    · rw [heq]
      exact hp
    · rw [heq]
      exact find?_table_update_self (fun q : Entity => q.entity_id) st.entities
        ({ entity with position := player.last_valid_position }) entity
        player.entity_id hent he
  · refine ⟨player, { entity with position := player.last_valid_position }, ?_, ?_, rfl⟩
    · rw [heq]
      exact hp
    · rw [heq]
      exact find?_table_update_self (fun q : Entity => q.entity_id) st.entities
        ({ entity with position := player.last_valid_position }) entity
        player.entity_id hent he
  · refine ⟨{ player with last_valid_position := position, last_update_timestamp := now_us },
      { entity with position := position }, ?_, ?_, rfl⟩
    · rw [heq]
      exact find?_table_update_self (fun q : Player => q.identity) st.players
        ({ player with last_valid_position := position, last_update_timestamp := now_us })
        player sender hid hp
    · rw [heq]
      exact find?_table_update_self (fun q : Entity => q.entity_id) st.entities
        ({ entity with position := position }) entity player.entity_id hent he

def mv_player : Player where
  identity := 7
  player_id := 1
  entity_id := 3
  online := true
  look_direction := { x := 0, y := 0 }
  animation_state := { horizontal_movement := 0, vertical_movement := 0, combo_count := 0,
                       is_moving := false, is_grounded := true, is_jumping := false,
                       is_attacking := false }
  last_valid_position := { x := 0, y := 0, z := 0 }
  last_update_timestamp := 0
  movement_speed := 6
  interaction_range := 3
  reconciliation_safety_margin := 3 / 2

def mv_entity : Entity where
  entity_id := 3
  position := { x := 0, y := 0, z := 0 }
  rotation := { x := 0, y := 0, z := 0 }
  health := 100
  max_health := 100
  attack_range := 3

def mv_state : State where
  players := [mv_player]
  entities := [mv_entity]
  navmesh_grid := []
  navmesh_configs := []
  lootable_item_types := []
  lootable_spawns := []
  inventories := []

def mv_state_cfg : State where
  players := [mv_player]
  entities := [mv_entity]
  navmesh_grid := []
  navmesh_configs := [{ id := 0, cell_size := 1, z_tolerance := 1,
                        bounds_min_x := 0, bounds_min_z := 0 }]
  lootable_item_types := []
  lootable_spawns := []
  inventories := []

theorem player_speed_gate_witness :
    (player_set_position mv_state 7 1000000 { x := 1, y := 0, z := 0 }).1 = Except.ok () := by
  have h := player_speed_gate mv_state 7 1000000 { x := 1, y := 0, z := 0 }
    mv_player mv_entity 1 1 (by rfl) (by rfl) (by rfl)
    (by norm_num [mv_player]) (by norm_num [mv_entity])
  exact (h.2 (by norm_num)).1.mpr
    (by rw [show ((1 : ℚ) : ℝ) = 1 by norm_num, Real.sqrt_one]; norm_num [mv_player])

theorem rejection_rollback_witness :
    ((player_set_position mv_state_cfg 7 1000000 { x := 1, y := 0, z := 0 }).2.entities.find?
        (fun q => q.entity_id == mv_player.entity_id)
      = some ({ mv_entity with position := mv_player.last_valid_position })) ∧
    (player_set_position mv_state_cfg 7 1000000 { x := 1, y := 0, z := 0 }).2.players
      = mv_state_cfg.players :=
  rejection_rollback mv_state_cfg 7 1000000 { x := 1, y := 0, z := 0 } mv_player mv_entity
    MovementError.invalidSurface (by rfl) (by rfl) (by rfl)

theorem live_position_matches_last_valid_witness :
    ∃ p2 e2,
      (player_set_position mv_state 7 1000000 { x := 1, y := 0, z := 0 }).2.players.find?
          (fun q => q.identity == 7) = some p2 ∧
      (player_set_position mv_state 7 1000000 { x := 1, y := 0, z := 0 }).2.entities.find?
          (fun q => q.entity_id == p2.entity_id) = some e2 ∧
      e2.position = p2.last_valid_position :=
  live_position_matches_last_valid mv_state 7 1000000 { x := 1, y := 0, z := 0 }
    mv_player mv_entity (by rfl) (by rfl)

/-! ### Lootable claims -/

/-- Claim C3: for an existing spawn within loot range of an existing player
(whose item type exists), `lootable_loot` rejects with an on-cooldown error
carrying remaining seconds `(respawn_time_us - elapsed) / 1e6` exactly when
the spawn is looted and `now_us - looted_at_us < respawn_time_us`; in every
other case (never looted, or elapsed at least the respawn time — the
boundary is inclusive) it succeeds, marks the spawn looted at `now_us`, and
grants the type's quantity through the inventory add. -/
theorem attempt_loot_cooldown (st : State) (sender : ℕ) (now_us : ℤ) (sid : ℕ)
    (player : Player) (player_entity : Entity) (spawn : LootableSpawn)
    (item_type : LootableItemType) (dist_sq : ℚ)
    (hp : st.players.find? (fun p => p.identity == sender) = some player)
    (he : st.entities.find? (fun e => e.entity_id == player.entity_id) = some player_entity)
    (hs : st.lootable_spawns.find? (fun q => q.spawn_id == sid) = some spawn)
    (ht : st.lootable_item_types.find? (fun t => t.type_id == spawn.type_id) = some item_type)
    (hd : dist_sq = (player_entity.position.x - spawn.position.x) ^ 2 +
      (player_entity.position.y - spawn.position.y) ^ 2 +
      (player_entity.position.z - spawn.position.z) ^ 2)
    (hrange : Real.sqrt (dist_sq : ℝ) ≤ (item_type.loot_distance : ℝ)) :
    ((spawn.is_looted = true ∧ now_us - spawn.looted_at_us < item_type.respawn_time_us) →
      lootable_loot st sender now_us sid =
        (Except.error (LootError.onCooldown
          (((item_type.respawn_time_us - (now_us - spawn.looted_at_us) : ℤ) : ℚ) / 1000000)),
         st)) ∧
    (¬(spawn.is_looted = true ∧ now_us - spawn.looted_at_us < item_type.respawn_time_us) →
      lootable_loot st sender now_us sid =
        (Except.ok (),
         { st with
           lootable_spawns := (table_update (fun q => q.spawn_id) st.lootable_spawns
             ({ spawn with is_looted := true, looted_at_us := now_us })),
           inventories := (inventory_add_item_internal st.inventories sender
             item_type.type_id item_type.quantity) })) := by
  have hsg : sqrt_gt ((player_entity.position.x - spawn.position.x) ^ 2 +
      (player_entity.position.y - spawn.position.y) ^ 2 +
      (player_entity.position.z - spawn.position.z) ^ 2) item_type.loot_distance = false :=
    (sqrt_gt_false_iff _ _).mpr (by rw [← hd]; exact hrange)
  have hnot : ¬ sqrt_gt ((player_entity.position.x - spawn.position.x) ^ 2 +
      (player_entity.position.y - spawn.position.y) ^ 2 +
      (player_entity.position.z - spawn.position.z) ^ 2) item_type.loot_distance = true := by
    simp [hsg]
  constructor
  · intro hcool
    simp only [lootable_loot, hp, he, hs, ht]
    rw [if_neg hnot, if_pos hcool]
  · intro hcool
    simp only [lootable_loot, hp, he, hs, ht]
    rw [if_neg hnot, if_neg hcool]

/-- Claim C4: `lootable_check_respawns` resets `is_looted` and
`looted_at_us` for exactly the looted spawns with a known type whose
elapsed time has met the respawn boundary, and changes nothing else: the
spawn table becomes the pointwise map of `sweep_step`, and every other
table is untouched. -/
theorem sweep_respawns_resets_exactly_eligible (st : State) (now_us : ℤ)
    (hnd : (st.lootable_spawns.map (fun s => s.spawn_id)).Nodup) :
    lootable_check_respawns st now_us =
      { st with lootable_spawns :=
          (st.lootable_spawns.map (sweep_step st.lootable_item_types now_us)) } :=
  check_respawns_eq_map st now_us hnd

/-- Claim C8: `lootable_check_respawns` is idempotent — running it twice at
the same time leaves the state exactly as running it once. -/
theorem sweep_respawns_idempotent (st : State) (now_us : ℤ)
    (hnd : (st.lootable_spawns.map (fun s => s.spawn_id)).Nodup) :
    lootable_check_respawns (lootable_check_respawns st now_us) now_us
      = lootable_check_respawns st now_us := by
  have h1 := check_respawns_eq_map st now_us hnd
  have hcomp : ((fun s : LootableSpawn => s.spawn_id) ∘
      sweep_step st.lootable_item_types now_us) = (fun s : LootableSpawn => s.spawn_id) := by
    funext q
    exact sweep_step_spawn_id _ _ q
  have hnd2 : (((st.lootable_spawns.map (sweep_step st.lootable_item_types now_us)).map
      (fun s => s.spawn_id)).Nodup) := by
    rw [List.map_map, hcomp]
    exact hnd
  rw [h1]
  rw [check_respawns_eq_map
    { st with lootable_spawns :=
        (st.lootable_spawns.map (sweep_step st.lootable_item_types now_us)) }
    now_us hnd2]
  congr 1
  rw [List.map_map]
  exact List.map_congr_left (fun a _ => sweep_step_idem _ _ a)

/-- Claim C10: for a spawn whose `type_id` has no matching
`LootableItemType` row, `lootable_loot` fails with the type-not-found error
and leaves the state — in particular the spawn's `is_looted` and
`looted_at_us` — completely unchanged (the range and cooldown checks are
never reached), and `lootable_check_respawns` never resets that spawn. -/
theorem loot_unknown_type (st : State) (sender : ℕ) (now_us : ℤ) (sid : ℕ)
    (player : Player) (player_entity : Entity) (spawn : LootableSpawn)
    (hp : st.players.find? (fun p => p.identity == sender) = some player)
    (he : st.entities.find? (fun e => e.entity_id == player.entity_id) = some player_entity)
    (hs : st.lootable_spawns.find? (fun q => q.spawn_id == sid) = some spawn)
    (ht : st.lootable_item_types.find? (fun t => t.type_id == spawn.type_id) = none)
    (hnd : (st.lootable_spawns.map (fun s => s.spawn_id)).Nodup) :
    lootable_loot st sender now_us sid = (Except.error LootError.typeNotFound, st) ∧
    (lootable_check_respawns st now_us).lootable_spawns.find?
        (fun q => q.spawn_id == sid) = some spawn := by
  constructor
  · simp only [lootable_loot, hp, he, hs, ht]
  · rw [check_respawns_eq_map st now_us hnd]
    show (st.lootable_spawns.map (sweep_step st.lootable_item_types now_us)).find?
        (fun q => q.spawn_id == sid) = some spawn
    rw [find?_map_key (fun q => q.spawn_id) (sweep_step st.lootable_item_types now_us)
      (sweep_step_spawn_id st.lootable_item_types now_us) st.lootable_spawns sid, hs]
    show some (sweep_step st.lootable_item_types now_us spawn) = some spawn
    unfold sweep_step
    rw [if_neg (by simp [respawn_eligible, ht])]

def loot_type : LootableItemType where
  type_id := 0
  name := "Branch"
  description := "A fallen tree branch."
  weight := 1 / 2
  quantity := 5
  respawn_time_us := 30000000
  loot_distance := 3 / 2

def loot_spawn : LootableSpawn where
  spawn_id := 1
  type_id := 0
  position := { x := 1, y := 0, z := 0 }
  rotation := { x := 0, y := 0, z := 0 }
  is_looted := false
  looted_at_us := 0

def loot_state : State where
  players := [mv_player]
  entities := [mv_entity]
  navmesh_grid := []
  navmesh_configs := []
  lootable_item_types := [loot_type]
  lootable_spawns := [loot_spawn]
  inventories := [{ identity := 7, size := 32, items := [] }]

theorem attempt_loot_cooldown_witness :
    (lootable_loot loot_state 7 5 1).1 = Except.ok () := by
  have h := attempt_loot_cooldown loot_state 7 5 1 mv_player mv_entity loot_spawn loot_type 1
    (by rfl) (by rfl) (by rfl) (by rfl)
    (by norm_num [mv_entity, loot_spawn])
    (by rw [show ((1 : ℚ) : ℝ) = 1 by norm_num, Real.sqrt_one]; norm_num [loot_type])
  rw [h.2 (by simp [loot_spawn])]

def c4_state : State where
  players := []
  entities := []
  navmesh_grid := []
  navmesh_configs := []
  lootable_item_types := [loot_type]
  lootable_spawns := [{ spawn_id := 1, type_id := 0, position := { x := 0, y := 0, z := 0 },
                        rotation := { x := 0, y := 0, z := 0 }, is_looted := true,
                        looted_at_us := 0 },
                      { spawn_id := 2, type_id := 0, position := { x := 0, y := 0, z := 0 },
                        rotation := { x := 0, y := 0, z := 0 }, is_looted := false,
                        looted_at_us := 0 }]
  inventories := []

theorem sweep_respawns_resets_exactly_eligible_witness :
    lootable_check_respawns c4_state 30000000 =
      { c4_state with lootable_spawns :=
          (c4_state.lootable_spawns.map (sweep_step c4_state.lootable_item_types 30000000)) } :=
  sweep_respawns_resets_exactly_eligible c4_state 30000000 (by decide)

theorem sweep_respawns_idempotent_witness :
    lootable_check_respawns (lootable_check_respawns c4_state 15000000) 15000000
      = lootable_check_respawns c4_state 15000000 :=
  sweep_respawns_idempotent c4_state 15000000 (by decide)

def c10_spawn : LootableSpawn where
  spawn_id := 4
  type_id := 9
  position := { x := 0, y := 0, z := 0 }
  rotation := { x := 0, y := 0, z := 0 }
  is_looted := true
  looted_at_us := 0

def c10_state : State where
  players := [mv_player]
  entities := [mv_entity]
  navmesh_grid := []
  navmesh_configs := []
  lootable_item_types := [loot_type]
  lootable_spawns := [c10_spawn]
  inventories := []

theorem loot_unknown_type_witness :
    lootable_loot c10_state 7 5 4 = (Except.error LootError.typeNotFound, c10_state) ∧
    (lootable_check_respawns c10_state 5).lootable_spawns.find?
        (fun q => q.spawn_id == 4) = some c10_spawn :=
  loot_unknown_type c10_state 7 5 4 mv_player mv_entity c10_spawn
    (by rfl) (by rfl) (by rfl) (by rfl) (by decide)

end Sentinel
